import Mathlib

/-!
Shallow embedding, in Lean 4, of the core algorithms of the kofnote
backend (Rust sources under src/kofnote-app/src-tauri/src/), together
with theorems settling the frozen specification claims.

Conventions of the embedding:
* Rust strings are Lean Strings; Unicode-aware Rust primitives
  (str::trim, str::to_lowercase, char::is_alphanumeric) are modelled on
  their ASCII fragment, or passed as parameters where a claim must hold
  for every classification.
* Fallible Rust functions returning Result become Except String.
* Filesystem / HTTP effects are modelled by explicit effect traces and
  environment records supplying the outcomes the real I/O would produce.
* f64 score arithmetic is modelled in exact rational arithmetic, with
  f64::round as round-half-away-from-zero.
-/

namespace Kofnote

/-! ## String primitives (ASCII model of the Rust primitives) -/

/-- ASCII fragment of char::is_whitespace, the classifier used by str::trim. -/
def is_rust_ws (c : Char) : Bool :=
  c = ' ' || c = '\t' || c = '\n' || c = '\r'

/-- Drop leading whitespace of a character list. -/
def trimStartChars (cs : List Char) : List Char :=
  cs.dropWhile is_rust_ws

/-- Model of str::trim on character lists: drop whitespace at both ends. -/
def trimChars (cs : List Char) : List Char :=
  ((cs.dropWhile is_rust_ws).reverse.dropWhile is_rust_ws).reverse

/-- Model of str::trim. -/
def rustTrim (s : String) : String :=
  String.mk (trimChars s.toList)

/-- Model of str::to_lowercase (ASCII fragment). -/
def rustLower (s : String) : String :=
  String.mk (s.toList.map Char.toLower)

/-- trim then to_lowercase, the composition used throughout the source. -/
def trimLower (s : String) : String :=
  rustLower (rustTrim s)

/-! ## Debate state machine (types.rs, DebateState / transition guard) -/

inductive DebateState where
  | Intake
  | Round1
  | Round2
  | Round3
  | Consensus
  | Judge
  | Packetize
  | Writeback
deriving DecidableEq, Repr, Fintype

/-- DebateState::as_str. -/
def DebateState.as_str : DebateState → String
  | .Intake => "Intake"
  | .Round1 => "Round1"
  | .Round2 => "Round2"
  | .Round3 => "Round3"
  | .Consensus => "Consensus"
  | .Judge => "Judge"
  | .Packetize => "Packetize"
  | .Writeback => "Writeback"

/-- Rust Debug formatting of Option<DebateState>, as used in the
DEBATE_ERR_STATE message. -/
def debugOptionState : Option DebateState → String
  | none => "None"
  | some s => "Some(" ++ s.as_str ++ ")"

/-- debate_error: every debate failure message is CODE: message. -/
def debate_error (code message : String) : String :=
  code ++ ": " ++ message

/-- validate_debate_transition (types.rs lines 2407-2419). -/
def validate_debate_transition : Option DebateState → DebateState → Bool
  | none, .Intake => true
  | some .Intake, .Round1 => true
  | some .Round1, .Round2 => true
  | some .Round2, .Round3 => true
  | some .Round3, .Consensus => true
  | some .Consensus, .Judge => true
  | some .Judge, .Packetize => true
  | some .Packetize, .Writeback => true
  | _, _ => false

/-- advance_debate_state (types.rs lines 2421-2435): the returned pair is
(the state cell after the call, the Result value). The error branch does
not write the state cell. -/
def advance_debate_state (current : Option DebateState) (next : DebateState) :
    Option DebateState × Except String Unit :=
  if validate_debate_transition current next then
    (some next, Except.ok ())
  else
    (current,
      Except.error (debate_error "DEBATE_ERR_STATE"
        ("Invalid transition: " ++ debugOptionState current ++ " -> " ++ next.as_str)))

instance {ε α : Type} [DecidableEq ε] [DecidableEq α] : DecidableEq (Except ε α) := fun a b =>
  match a, b with
  | .ok x, .ok y =>
      if h : x = y then isTrue (by rw [h]) else isFalse (fun hc => h (Except.ok.inj hc))
  | .ok _, .error _ => isFalse (fun hc => Except.noConfusion hc)
  | .error _, .ok _ => isFalse (fun hc => Except.noConfusion hc)
  | .error x, .error y =>
      if h : x = y then isTrue (by rw [h]) else isFalse (fun hc => h (Except.error.inj hc))

/-- The allowed-transition set exactly as the claim enumerates it. -/
def allowed_transition_pairs : List (Option DebateState × DebateState) :=
  [ (none, .Intake),
    (some .Intake, .Round1),
    (some .Round1, .Round2),
    (some .Round2, .Round3),
    (some .Round3, .Consensus),
    (some .Consensus, .Judge),
    (some .Judge, .Packetize),
    (some .Packetize, .Writeback) ]

/-! ## Conflict-strategy normalization (types.rs lines 3888-3899) -/

/-- normalize_conflict_strategy: matches on the trimmed lowercase of the
given value (absence defaulting to manual). -/
def normalize_conflict_strategy (value : Option String) : String :=
  let v := trimLower (value.getD "manual")
  if v = "local" ∨ v = "local_wins" then "local_wins"
  else if v = "notion" ∨ v = "notion_wins" ∨ v = "remote_wins" then "notion_wins"
  else "manual"

/-! ## slugify (util.rs lines 62-84) -/

/-- ASCII fragment of char::is_alphanumeric. -/
def rust_is_alnum (c : Char) : Bool := c.isAlphanum

/-- The character loop of slugify: a kept character (classifier-accepted,
dash or underscore) is pushed as is, anything else is pushed as a dash. -/
def dashify (keep : Char → Bool) (cs : List Char) : List Char :=
  cs.map (fun c => if keep c || c = '-' || c = '_' then c else '-')

/-- One pass of str::replace("--", "-"): left-to-right, non-overlapping. -/
def replaceDD : List Char → List Char
  | [] => []
  | [a] => [a]
  | a :: b :: rest =>
      if a = '-' ∧ b = '-' then '-' :: replaceDD rest
      else a :: replaceDD (b :: rest)

/-- str::contains("--"). -/
def hasDD : List Char → Bool
  | [] => false
  | [_] => false
  | a :: b :: rest => (a = '-' && b = '-') || hasDD (b :: rest)

theorem replaceDD_length_le (cs : List Char) : (replaceDD cs).length ≤ cs.length := by
  match cs with
  | [] => simp [replaceDD]
  | [a] => simp [replaceDD]
  | a :: b :: rest =>
    simp only [replaceDD]
    split
    · have := replaceDD_length_le rest
      simp only [List.length_cons]
      omega
    · have := replaceDD_length_le (b :: rest)
      simp only [List.length_cons] at this ⊢
      omega

theorem replaceDD_length_lt (cs : List Char) (h : hasDD cs = true) :
    (replaceDD cs).length < cs.length := by
  match cs with
  | [] => simp [hasDD] at h
  | [a] => simp [hasDD] at h
  | a :: b :: rest =>
    simp only [hasDD, Bool.or_eq_true, Bool.and_eq_true, decide_eq_true_eq] at h
    simp only [replaceDD]
    split
    · have := replaceDD_length_le rest
      simp only [List.length_cons]
      omega
    · rename_i hne
      rcases h with h | h
      · exact absurd h hne
      · have := replaceDD_length_lt (b :: rest) h
        simp only [List.length_cons] at this ⊢
        omega

/-- The while loop of slugify: replace "--" with "-" until no "--" remains. -/
def collapseLoop (cs : List Char) : List Char :=
  if h : hasDD cs = true then collapseLoop (replaceDD cs) else cs
termination_by cs.length
decreasing_by exact replaceDD_length_lt cs h

/-- Spec-side one-pass collapse of dash runs to a single dash. -/
def collapseRuns : List Char → List Char
  | [] => []
  | [a] => [a]
  | a :: b :: rest =>
      if a = '-' ∧ b = '-' then collapseRuns (b :: rest)
      else a :: collapseRuns (b :: rest)

theorem collapseRuns_of_not_hasDD (cs : List Char) (h : hasDD cs = false) :
    collapseRuns cs = cs := by
  match cs with
  | [] => rfl
  | [a] => rfl
  | a :: b :: rest =>
    simp only [hasDD, Bool.or_eq_false_iff, Bool.and_eq_false_iff] at h
    obtain ⟨h1, h2⟩ := h
    have ih := collapseRuns_of_not_hasDD (b :: rest) h2
    simp only [collapseRuns, ih]
    split
    · rename_i hd
      rcases h1 with h1 | h1 <;> simp [hd.1, hd.2] at h1
    · rfl

theorem replaceDD_headq (cs : List Char) : (replaceDD cs).head? = cs.head? := by
  match cs with
  | [] => rfl
  | [a] => rfl
  | a :: b :: rest =>
    simp only [replaceDD]
    split
    · rename_i hd
      simp [hd.1]
    · simp

theorem collapseRuns_cons_dash (xs : List Char) :
    collapseRuns ('-' :: xs) =
      if xs.head? = some '-' then collapseRuns xs else '-' :: collapseRuns xs := by
  match xs with
  | [] => rfl
  | y :: t =>
    simp only [collapseRuns, List.head?_cons]
    by_cases hy : y = '-'
    · simp [hy]
    · simp [hy]

theorem collapseRuns_cons_of_ne (a : Char) (xs : List Char) (ha : ¬a = '-') :
    collapseRuns (a :: xs) = a :: collapseRuns xs := by
  match xs with
  | [] => rfl
  | y :: t => simp [collapseRuns, ha]

theorem collapseRuns_replaceDD (cs : List Char) :
    collapseRuns (replaceDD cs) = collapseRuns cs := by
  match cs with
  | [] => rfl
  | [a] => rfl
  | a :: b :: rest =>
    simp only [replaceDD]
    split
    · rename_i hd
      obtain ⟨ha, hb⟩ := hd
      have ih := collapseRuns_replaceDD rest
      rw [collapseRuns_cons_dash, replaceDD_headq, ih]
      subst ha hb
      rw [show collapseRuns ('-' :: '-' :: rest) = collapseRuns ('-' :: rest) by
        simp [collapseRuns]]
      rw [collapseRuns_cons_dash]
    · rename_i hd
      have ih := collapseRuns_replaceDD (b :: rest)
      by_cases ha : a = '-'
      · have hb : ¬b = '-' := fun hb => hd ⟨ha, hb⟩
        subst ha
        rw [collapseRuns_cons_dash, replaceDD_headq, List.head?_cons,
          if_neg (by simpa using hb), ih, collapseRuns_cons_dash, List.head?_cons,
          if_neg (by simpa using hb)]
      · rw [collapseRuns_cons_of_ne a _ ha, ih, collapseRuns_cons_of_ne a _ ha]

theorem collapseLoop_eq_collapseRuns (cs : List Char) :
    collapseLoop cs = collapseRuns cs := by
  by_cases h : hasDD cs = true
  · rw [collapseLoop, dif_pos h, collapseLoop_eq_collapseRuns (replaceDD cs),
      collapseRuns_replaceDD]
  · rw [collapseLoop, dif_neg h, collapseRuns_of_not_hasDD cs (by simpa using h)]
termination_by cs.length
decreasing_by exact replaceDD_length_lt cs h

/-- trim_matches('-') at both ends. -/
def trimDashes (cs : List Char) : List Char :=
  ((cs.dropWhile (fun c => c = '-')).reverse.dropWhile (fun c => c = '-')).reverse

/-- slugify (util.rs lines 62-84) on the lowercased character sequence,
parameterized over the is_alphanumeric classifier. -/
def slugify_chars (keep : Char → Bool) (lowered : List Char) : List Char :=
  let slug := dashify keep lowered
  let collapsed := collapseLoop slug
  let trimmed := trimDashes collapsed
  if trimmed = [] then "untitled".toList
  else if trimmed.length > 48 then trimmed.take 48
  else trimmed

/-- slugify with the concrete ASCII classifiers. -/
def slugify (value : String) : String :=
  String.mk (slugify_chars rust_is_alnum (rustLower value).toList)

/-- Spec-side slug pipeline: map non-retained characters to dashes,
collapse dash runs in one pass, trim dashes at both ends, substitute
"untitled" for an empty result, truncate to 48 code points. -/
def slugify_spec_chars (keep : Char → Bool) (lowered : List Char) : List Char :=
  let t := trimDashes (collapseRuns (dashify keep lowered))
  if t = [] then "untitled".toList else t.take 48

/-! ## Debate intake normalization (types.rs lines 2231-2310) -/

inductive DebateRole where
  | Proponent
  | Critic
  | Analyst
  | Synthesizer
  | Judge
deriving DecidableEq, Repr

/-- DebateRole::all, the fixed role order. -/
def DebateRole.allRoles : List DebateRole :=
  [.Proponent, .Critic, .Analyst, .Synthesizer, .Judge]

/-- parse_debate_role: case-insensitive role parsing. -/
def parse_debate_role (value : String) : Option DebateRole :=
  let v := trimLower value
  if v = "proponent" then some .Proponent
  else if v = "critic" then some .Critic
  else if v = "analyst" then some .Analyst
  else if v = "synthesizer" then some .Synthesizer
  else if v = "judge" then some .Judge
  else none

structure DebateProviderConfig where
  id : String
  provider_type : String
  enabled : Bool
  capabilities : List String
deriving DecidableEq, Repr

/-- Provider registry: id-keyed map, modelled as an association list. -/
structure DebateProviderRegistry where
  providers : List (String × DebateProviderConfig)
deriving DecidableEq, Repr

def DebateProviderRegistry.get (reg : DebateProviderRegistry) (provider_id : String) :
    Option DebateProviderConfig :=
  (reg.providers.lookup (trimLower provider_id))

def DebateProviderRegistry.is_enabled (reg : DebateProviderRegistry) (provider_id : String) :
    Bool :=
  ((reg.get provider_id).map (fun item => item.enabled)).getD false

/-- normalize_provider_alias: codex to codex-cli, chatgpt to chatgpt-web. -/
def normalize_provider_alias (value : String) : String :=
  let t := trimLower value
  if t = "codex" then "codex-cli"
  else if t = "chatgpt" then "chatgpt-web"
  else t

/-- resolve_provider_type. -/
def resolve_provider_type (provider_id : String) (reg : DebateProviderRegistry) : String :=
  if provider_id = "openai" ∨ provider_id = "gemini" ∨ provider_id = "claude"
      ∨ provider_id = "local" then "builtin"
  else
    match reg.get provider_id with
    | some provider => provider.provider_type
    | none => "builtin"

/-- normalize_debate_provider: canonical provider plus optional warning code. -/
def normalize_debate_provider (value : String) (reg : DebateProviderRegistry) :
    String × Option String :=
  let normalized := trimLower value
  if normalized = "" then ("local", none)
  else if normalized = "openai" ∨ normalized = "gemini" ∨ normalized = "claude"
      ∨ normalized = "local" then (normalized, none)
  else
    let canonical := normalize_provider_alias normalized
    if reg.is_enabled canonical then (canonical, none)
    else if (reg.get canonical).isSome then
      ("local", some "DEBATE_WARN_PROVIDER_DISABLED_FALLBACK_LOCAL")
    else
      ("local", some "DEBATE_WARN_PROVIDER_UNKNOWN_FALLBACK_LOCAL")

/-- normalize_debate_model_name: provider defaults for empty model names. -/
def normalize_debate_model_name (provider model_name : String) : String :=
  let trimmed := rustTrim model_name
  if trimmed ≠ "" then trimmed
  else if provider = "openai" then "gpt-4.1-mini"
  else if provider = "gemini" then "gemini-2.0-flash"
  else if provider = "claude" then "claude-3-5-sonnet-latest"
  else if provider = "codex-cli" then "codex"
  else if provider = "gemini-cli" then "gemini"
  else if provider = "claude-cli" then "claude"
  else if provider = "chatgpt-web" then "chatgpt-web"
  else if provider = "gemini-web" then "gemini-web"
  else if provider = "claude-web" then "claude-web"
  else "local-heuristic-v1"

/-- normalize_debate_output_type. -/
def normalize_debate_output_type (value : String) : Except String String :=
  let normalized := trimLower value
  if normalized = "decision" ∨ normalized = "writing" ∨ normalized = "architecture"
      ∨ normalized = "planning" ∨ normalized = "evaluation" then
    Except.ok normalized
  else
    Except.error (debate_error "DEBATE_ERR_INPUT"
      "output_type must be one of: decision|writing|architecture|planning|evaluation")

/-- dedup_non_empty: keep trimmed non-empty strings, first occurrence wins. -/
def dedup_non_empty (items : List String) : List String :=
  items.foldl (fun out item =>
    let clean := rustTrim item
    if clean = "" ∨ out.contains clean then out else out ++ [clean]) []

/-- Rust integer clamp. -/
def natClamp (x lo hi : Nat) : Nat := min (max x lo) hi

structure DebateParticipantConfig where
  role : Option String
  model_provider : Option String
  model_name : Option String
deriving DecidableEq, Repr

structure DebateModeRequest where
  problem : String
  constraints : List String
  output_type : String
  participants : List DebateParticipantConfig
  max_turn_seconds : Option Nat
  max_turn_tokens : Option Nat
  writeback_record_type : Option String
deriving DecidableEq, Repr

structure DebateRuntimeParticipant where
  role : DebateRole
  model_provider : String
  provider_type : String
  model_name : String
deriving DecidableEq, Repr

structure DebateNormalizedRequest where
  problem : String
  constraints : List String
  output_type : String
  participants : List DebateRuntimeParticipant
  max_turn_seconds : Nat
  max_turn_tokens : Nat
  writeback_record_type : Option String
  warning_codes : List String
deriving DecidableEq, Repr

/-- The body of the participants loop of normalize_debate_request: the
state is (warning codes so far, the provided HashMap as a function). A
valid role overwrites the map entry for that role (HashMap::insert). -/
def normalize_participant_step (reg : DebateProviderRegistry)
    (st : List String × (DebateRole → Option DebateRuntimeParticipant))
    (config : DebateParticipantConfig) :
    List String × (DebateRole → Option DebateRuntimeParticipant) :=
  let role_name := config.role.getD ""
  let provider_input := config.model_provider.getD "local"
  let model_name_input := config.model_name.getD ""
  match parse_debate_role role_name with
  | some role =>
      let input_normalized := trimLower provider_input
      let pw := normalize_debate_provider (rustTrim provider_input) reg
      let w1 := if pw.1 ≠ input_normalized ∧ input_normalized ≠ "" then
          st.1 ++ ["DEBATE_WARN_PROVIDER_NORMALIZED"] else st.1
      let w2 := match pw.2 with
        | some code => w1 ++ [code]
        | none => w1
      (w2, fun r => if r = role then
          some { role := role,
                 model_provider := pw.1,
                 provider_type := resolve_provider_type pw.1 reg,
                 model_name := normalize_debate_model_name pw.1 model_name_input }
        else st.2 r)
  | none =>
      if rustTrim role_name ≠ "" then
        (st.1 ++ ["DEBATE_WARN_UNKNOWN_ROLE_IGNORED"], st.2)
      else st

/-- normalize_debate_request (types.rs lines 2231-2310). -/
def normalize_debate_request (request : DebateModeRequest)
    (reg : DebateProviderRegistry) : Except String DebateNormalizedRequest :=
  let problem := rustTrim request.problem
  if problem = "" then
    Except.error (debate_error "DEBATE_ERR_INPUT" "Problem cannot be empty")
  else
    match normalize_debate_output_type request.output_type with
    | Except.error e => Except.error e
    | Except.ok output_type =>
      let max_turn_seconds := natClamp (request.max_turn_seconds.getD 35) 5 120
      let max_turn_tokens := natClamp (request.max_turn_tokens.getD 900) 128 4096
      let folded := request.participants.foldl (normalize_participant_step reg)
        ([], fun _ => none)
      let participants := DebateRole.allRoles.map (fun role =>
        match folded.2 role with
        | some item => item
        | none =>
            { role := role,
              model_provider := "local",
              provider_type := "builtin",
              model_name := normalize_debate_model_name "local" "" })
      Except.ok
        { problem := problem,
          constraints := (request.constraints.map rustTrim).filter (fun item => item != ""),
          output_type := output_type,
          participants := participants,
          max_turn_seconds := max_turn_seconds,
          max_turn_tokens := max_turn_tokens,
          writeback_record_type :=
            (request.writeback_record_type.map rustTrim).filter (fun item => item != ""),
          warning_codes := dedup_non_empty folded.1 }

/-- Spec-side: the last input entry whose role parses to the given role. -/
def last_config_for : List DebateParticipantConfig → DebateRole →
    Option DebateParticipantConfig
  | [], _ => none
  | c :: t, role =>
      match last_config_for t role with
      | some c2 => some c2
      | none =>
          if parse_debate_role (c.role.getD "") = some role then some c else none

/-- Spec-side: the runtime participant a single input entry normalizes to. -/
def normalized_participant (reg : DebateProviderRegistry) (role : DebateRole)
    (config : DebateParticipantConfig) : DebateRuntimeParticipant :=
  let pw := normalize_debate_provider (rustTrim (config.model_provider.getD "local")) reg
  { role := role,
    model_provider := pw.1,
    provider_type := resolve_provider_type pw.1 reg,
    model_name := normalize_debate_model_name pw.1 (config.model_name.getD "") }

/-- Spec-side: the synthesized participant for a role the input did not supply. -/
def local_default_participant (role : DebateRole) : DebateRuntimeParticipant :=
  { role := role,
    model_provider := "local",
    provider_type := "builtin",
    model_name := "local-heuristic-v1" }

/-! ## Debate consensus scores (types.rs lines 2739-2800 and 3513-3515)

f64 score arithmetic is modelled in exact rational arithmetic; f64::round
is round-half-away-from-zero and the literal 0.03 is 3/100. -/

/-- f64::clamp. -/
def rustClamp (x lo hi : ℚ) : ℚ := min (max x lo) hi

/-- f64::round: round half away from zero. -/
def rustRound (x : ℚ) : ℤ :=
  if 0 ≤ x then ⌊x + 1 / 2⌋ else -⌊-x + 1 / 2⌋

/-- round_score (types.rs lines 3513-3515). -/
def round_score (value : ℚ) : ℚ :=
  (rustRound (rustClamp value 0 1 * 1000) : ℚ) / 1000

/-- Spec-side rounding to three decimals, with no clamping. -/
def round_to_3 (x : ℚ) : ℚ := (rustRound (x * 1000) : ℚ) / 1000

/-- The turn fields read by build_debate_consensus. -/
structure DebateTurnM where
  role : String
  status : String
  claim : String
  risks : List String
  error_message : Option String
deriving DecidableEq, Repr

structure DebateRoundArtifactM where
  round : String
  turns : List DebateTurnM
deriving DecidableEq, Repr

structure DebatePacketConsensus where
  consensus_score : ℚ
  confidence_score : ℚ
  key_agreements : List String
  key_disagreements : List String
deriving DecidableEq, Repr

/-- summarize_text_line (types.rs): first non-empty trimmed line,
truncated to max_chars - 1 code points and re-trimmed when too long. -/
def summarize_text_line (value : String) (max_chars : Nat) : String :=
  let line := (((value.splitOn "\n").map rustTrim).find? (fun item => item != "")).getD ""
  if line.toList.length ≤ max_chars then line
  else rustTrim (String.mk (line.toList.take (max_chars - 1)))

/-- Total turn count across the round artifacts. -/
def debate_total_turns (rounds : List DebateRoundArtifactM) : Nat :=
  ((rounds.map (fun round => round.turns.length)).sum)

/-- Number of turns with status ok. -/
def debate_ok_turns (rounds : List DebateRoundArtifactM) : Nat :=
  (((rounds.flatMap (fun round => round.turns)).filter (fun turn => turn.status == "ok")).length)

/-- build_debate_consensus (types.rs lines 2739-2800). -/
def build_debate_consensus (rounds : List DebateRoundArtifactM)
    (error_codes : List String) : DebatePacketConsensus :=
  let total_turns := debate_total_turns rounds
  let ok_turns := debate_ok_turns rounds
  let failure_count := total_turns - ok_turns
  let base_score : ℚ := if total_turns = 0 then 0 else (ok_turns : ℚ) / (total_turns : ℚ)
  let confidence := rustClamp (base_score - (failure_count : ℚ) * (3 / 100)) 0 1
  let agreements := dedup_non_empty
    ((((rounds.flatMap (fun round => round.turns)).filter (fun turn => turn.status == "ok")).map
      (fun turn => summarize_text_line turn.claim 120)).take 6)
  let disagreements0 := ((rounds.flatMap (fun round => round.turns)).filterMap
    (fun turn => turn.error_message)).map (fun item => summarize_text_line item 120)
  let disagreements1 :=
    if disagreements0 = [] then
      ((((rounds.flatMap (fun round => round.turns)).filter
        (fun turn => turn.role == "Critic")).flatMap (fun turn => turn.risks)).take 4)
    else disagreements0
  let disagreements := disagreements1 ++
    error_codes.map (fun code => "Observed warning/error code: " ++ code)
  { consensus_score := round_score base_score,
    confidence_score := round_score confidence,
    key_agreements :=
      if agreements = [] then
        ["Participants aligned on delivering an executable local-first packet."]
      else agreements,
    key_disagreements :=
      if disagreements = [] then ["No major disagreement captured."]
      else dedup_non_empty disagreements }

/-! ## Record model, structured JSON and parsing
(types.rs, storage/records.rs, util.rs)

The structured record persistence is modelled at the JSON value level:
serde_json pretty-printing followed by parsing is the identity on JSON
values, so persist-then-reload is record_from_value applied to the
persisted value. -/

/-- serde_json::Value. -/
inductive Json where
  | null
  | boolean (b : Bool)
  | num (n : ℚ)
  | str (s : String)
  | arr (items : List Json)
  | obj (fields : List (String × Json))

/-- Value::get on an object key. -/
def Json.get (v : Json) (key : String) : Option Json :=
  match v with
  | .obj fields => fields.lookup key
  | _ => none

/-- Value::as_str. -/
def Json.as_str : Json → Option String
  | .str s => some s
  | _ => none

/-- value_string (util.rs). -/
def value_string (value : Json) (key : String) : Option String :=
  (value.get key).bind Json.as_str

/-- value_string_array (util.rs). -/
def value_string_array (value : Json) (key : String) : List String :=
  match value.get key with
  | some (.arr items) => items.filterMap Json.as_str
  | _ => []

/-- RECORD_TYPE_DIRS (types.rs lines 22-28). -/
def RECORD_TYPE_DIRS : List (String × String) :=
  [("decision", "decisions"), ("worklog", "worklogs"), ("idea", "ideas"),
   ("backlog", "backlogs"), ("note", "other")]

/-- normalize_record_type (util.rs): unknown types canonicalize to note. -/
def normalize_record_type (record_type : String) : String :=
  let lower := trimLower record_type
  if RECORD_TYPE_DIRS.any (fun p => p.1 == lower) then lower else "note"

structure Record where
  record_type : String
  title : String
  created_at : String
  source_text : String
  final_body : String
  tags : List String
  date : Option String
  notion_page_id : Option String
  notion_url : Option String
  notion_sync_status : String
  notion_error : Option String
  notion_last_synced_at : Option String
  notion_last_edited_time : Option String
  notion_last_synced_hash : Option String
  json_path : Option String
  md_path : Option String
deriving DecidableEq, Repr

/-- Option-valued string fields serialize as null or string. -/
def jsonOfOpt : Option String → Json
  | none => Json.null
  | some s => Json.str s

/-- record_from_value (storage/records.rs lines 140-177); mtime stands in
for file_mtime_iso of the json path. -/
def record_from_value (value : Json) (json_path md_path : Option String)
    (fallback_type : Option String) (mtime : String) : Record :=
  { record_type :=
      (((value_string value "type").or fallback_type).map normalize_record_type).getD "note",
    title := (value_string value "title").getD "Untitled",
    created_at :=
      (value_string value "created_at").getD
        (match json_path with | some _ => mtime | none => ""),
    source_text := (value_string value "source_text").getD "",
    final_body := (value_string value "final_body").getD "",
    tags := value_string_array value "tags",
    date := value_string value "date",
    notion_page_id := value_string value "notion_page_id",
    notion_url := value_string value "notion_url",
    notion_sync_status := (value_string value "notion_sync_status").getD "SUCCESS",
    notion_error := value_string value "notion_error",
    notion_last_synced_at := value_string value "notion_last_synced_at",
    notion_last_edited_time := value_string value "notion_last_edited_time",
    notion_last_synced_hash := value_string value "notion_last_synced_hash",
    json_path := json_path,
    md_path := md_path }

/-- The JSON object persist_record_to_files writes
(storage/records.rs lines 179-205). -/
def record_persisted_json (record : Record) : Json :=
  Json.obj
    [ ("type", Json.str record.record_type),
      ("title", Json.str record.title),
      ("created_at", Json.str record.created_at),
      ("notion_page_id", jsonOfOpt record.notion_page_id),
      ("notion_url", jsonOfOpt record.notion_url),
      ("source_text", Json.str record.source_text),
      ("final_body", Json.str record.final_body),
      ("tags", Json.arr (record.tags.map Json.str)),
      ("date", jsonOfOpt record.date),
      ("notion_sync_status", Json.str record.notion_sync_status),
      ("notion_error", jsonOfOpt record.notion_error),
      ("notion_last_synced_at", jsonOfOpt record.notion_last_synced_at),
      ("notion_last_edited_time", jsonOfOpt record.notion_last_edited_time),
      ("notion_last_synced_hash", jsonOfOpt record.notion_last_synced_hash) ]

/-- Persist a record to its structured JSON and reload it with the
record parser (the type key is present, so the directory fallback type
of the loaders is irrelevant). -/
def persist_reload (record : Record) (json_path md_path : Option String)
    (mtime : String) : Record :=
  record_from_value (record_persisted_json record) json_path md_path none mtime

/-! ## upsert_record (types.rs lines 806-906), persisted-value dataflow -/

structure RecordPayload where
  record_type : String
  title : String
  created_at : Option String
  source_text : Option String
  final_body : Option String
  tags : Option (List String)
  date : Option String
  notion_page_id : Option String
  notion_url : Option String
  notion_sync_status : Option String
  notion_error : Option String
  notion_last_synced_at : Option String
  notion_last_edited_time : Option String
  notion_last_synced_hash : Option String
deriving DecidableEq, Repr

/-- The JSON object upsert_record persists. existing_value is the parsed
content of the prior-path file (none when no prior path was given, the
file does not exist, or it fails to parse); now stands in for
Local::now(). -/
def upsert_persisted_json (payload : RecordPayload) (existing_value : Option Json)
    (now : String) : Json :=
  let record_type := normalize_record_type payload.record_type
  let created_at := payload.created_at.getD now
  let title := if rustTrim payload.title = "" then "Untitled" else rustTrim payload.title
  let tags := payload.tags.getD []
  let notion_sync_status := payload.notion_sync_status.getD "SUCCESS"
  let source_text := payload.source_text.getD ""
  let final_body := payload.final_body.getD ""
  let notion_last_synced_at := payload.notion_last_synced_at.or
    (existing_value.bind (fun value => value_string value "notion_last_synced_at"))
  let notion_last_edited_time := payload.notion_last_edited_time.or
    (existing_value.bind (fun value => value_string value "notion_last_edited_time"))
  let notion_last_synced_hash := payload.notion_last_synced_hash.or
    (existing_value.bind (fun value => value_string value "notion_last_synced_hash"))
  Json.obj
    [ ("type", Json.str record_type),
      ("title", Json.str title),
      ("created_at", Json.str created_at),
      ("notion_page_id", jsonOfOpt payload.notion_page_id),
      ("notion_url", jsonOfOpt payload.notion_url),
      ("source_text", Json.str source_text),
      ("final_body", Json.str final_body),
      ("tags", Json.arr (tags.map Json.str)),
      ("date", jsonOfOpt payload.date),
      ("notion_sync_status", Json.str notion_sync_status),
      ("notion_error", jsonOfOpt payload.notion_error),
      ("notion_last_synced_at", jsonOfOpt notion_last_synced_at),
      ("notion_last_edited_time", jsonOfOpt notion_last_edited_time),
      ("notion_last_synced_hash", jsonOfOpt notion_last_synced_hash) ]

/-- The Record value upsert_record returns: record_from_value applied to
the persisted object with fallback_type None. -/
def upsert_record_result (payload : RecordPayload) (existing_value : Option Json)
    (now : String) (json_path md_path : Option String) (mtime : String) : Record :=
  record_from_value (upsert_persisted_json payload existing_value now)
    json_path md_path none mtime

/-! ## Sync hash and watermark detection (types.rs lines 3901-3957)

Rust's DefaultHasher digest is abstracted as a parameter digest of the
seven hashed fields; format!("\x7b:x\x7d", digest) is modelled by natToHex. -/

/-- A hex digit character, lowercase, as produced by the x format. -/
def hexDigitChar (n : Nat) : Char :=
  if n < 10 then Char.ofNat (48 + n) else Char.ofNat (87 + n)

def natToHexAux (n : Nat) (acc : List Char) : List Char :=
  if h : n = 0 then acc
  else natToHexAux (n / 16) (hexDigitChar (n % 16) :: acc)
termination_by n
decreasing_by exact Nat.div_lt_self (Nat.pos_of_ne_zero h) (by norm_num)

/-- Lowercase hexadecimal rendering of a natural number. -/
def natToHex (n : Nat) : String :=
  if n = 0 then "0" else String.mk (natToHexAux n [])

/-- record_sync_hash (types.rs lines 3901-3913): the digest hashes exactly
record_type, title, created_at, source_text, final_body, date and the
tags, in that order. -/
def record_sync_hash
    (digest : String → String → String → String → String → Option String →
      List String → Nat)
    (record : Record) : String :=
  natToHex (digest record.record_type record.title record.created_at
    record.source_text record.final_body record.date record.tags)

/-- local_has_changed_since_sync (types.rs lines 3915-3926). -/
def local_has_changed_since_sync
    (digest : String → String → String → String → String → Option String →
      List String → Nat)
    (record : Record) : Bool :=
  let base := rustTrim (record.notion_last_synced_hash.getD "")
  if base = "" then true
  else record_sync_hash digest record != base

/-- mark_record_synced (types.rs lines 3947-3957); now stands in for
Local::now().to_rfc3339(). -/
def mark_record_synced
    (digest : String → String → String → String → String → Option String →
      List String → Nat)
    (now : String) (record : Record) (remote_last_edited_time : Option String) : Record :=
  let r1 := { record with
    notion_sync_status := "SUCCESS",
    notion_error := none,
    notion_last_synced_at := some now }
  let r2 := match remote_last_edited_time with
    | some value =>
        if rustTrim value ≠ "" then { r1 with notion_last_edited_time := some value }
        else r1
    | none => r1
  { r2 with notion_last_synced_hash := some (record_sync_hash digest r2) }

/-! ## delete_record (types.rs lines 908-921)

Modelled as a trace of the operations attempted plus the Result; the
environment supplies file existence and the outcome each filesystem or
index operation would have (none = Ok, some message = Err). -/

inductive DeleteOp where
  | remove_json
  | remove_md
  | delete_index_row
deriving DecidableEq, Repr

structure DeleteEnv where
  json_exists : Bool
  md_exists : Bool
  remove_json_result : Option String
  remove_md_result : Option String
  index_delete_result : Option String
deriving DecidableEq, Repr

/-- The markdown-removal and index steps of delete_record. -/
def delete_record_md_step (env : DeleteEnv) (trace : List DeleteOp) :
    List DeleteOp × Except String Unit :=
  if env.md_exists then
    match env.remove_md_result with
    | some e => (trace ++ [DeleteOp.remove_md], Except.error e)
    | none => (trace ++ [DeleteOp.remove_md, DeleteOp.delete_index_row], Except.ok ())
  else (trace ++ [DeleteOp.delete_index_row], Except.ok ())

/-- delete_record: remove the JSON file if it exists (errors propagate),
then the markdown file if it exists (errors propagate), then the index
row (result discarded). -/
def delete_record (env : DeleteEnv) : List DeleteOp × Except String Unit :=
  if env.json_exists then
    match env.remove_json_result with
    | some e => ([DeleteOp.remove_json], Except.error e)
    | none => delete_record_md_step env [DeleteOp.remove_json]
  else delete_record_md_step env []

/-! ## Single-record sync (types.rs lines 3976-4155)

The two sync entry points are modelled as pure functions of the loaded
record, the environment (remote fetch outcomes, database schema, HTTP
outcomes) and the normalized conflict strategy, returning the effect
trace, the record as persisted, and the result. File writes are modelled
as succeeding; their failure handling is orthogonal to the claims. -/

structure NotionRemoteRecord where
  page_id : String
  page_url : Option String
  last_edited_time : Option String
  record_type : String
  title : String
  created_at : String
  date : Option String
  tags : List String
  final_body : String
  source_text : String
deriving DecidableEq, Repr

structure NotionUpsertInfo where
  page_id : String
  page_url : Option String
  last_edited_time : Option String
deriving DecidableEq, Repr

/-- remote_has_changed (types.rs lines 3928-3945). -/
def remote_has_changed (record : Record) (remote : NotionRemoteRecord) : Bool :=
  let current := rustTrim (remote.last_edited_time.getD "")
  if current = "" then false
  else rustTrim (record.notion_last_edited_time.getD "") != current

/-- apply_remote_to_local_record (types.rs lines 4393-4414). -/
def apply_remote_to_local_record (local_record : Record)
    (remote : NotionRemoteRecord) : Record :=
  { local_record with
    record_type := normalize_record_type remote.record_type,
    title := if rustTrim remote.title = "" then local_record.title else remote.title,
    created_at := if rustTrim remote.created_at = "" then local_record.created_at
      else remote.created_at,
    source_text := remote.source_text,
    final_body := remote.final_body,
    tags := remote.tags,
    date := remote.date,
    notion_page_id := some remote.page_id,
    notion_url := remote.page_url,
    notion_error := none }

structure NotionSyncResult where
  notion_page_id : Option String
  notion_url : Option String
  notion_sync_status : String
  notion_error : Option String
  action : String
  conflict : Bool
deriving DecidableEq, Repr

/-- build_sync_result (types.rs lines 3959-3974); the json_path echo of
the source is dropped, paths being abstracted away. -/
def build_sync_result (record : Record) (action : String) (conflict : Bool) :
    NotionSyncResult :=
  { notion_page_id := record.notion_page_id,
    notion_url := record.notion_url,
    notion_sync_status := record.notion_sync_status,
    notion_error := record.notion_error,
    action := action,
    conflict := conflict }

inductive SyncEffect where
  | fetch_remote (with_content : Bool)
  | fetch_database
  | patch_page
  | post_page
  | persist_files
  | upsert_index
deriving DecidableEq, Repr

/-- Outcome the environment supplies for the PATCH request. -/
inductive PatchOutcome where
  | success (info : NotionUpsertInfo)
  | not_found
  | failure (status : Nat) (body : String)
deriving DecidableEq, Repr

/-- Environment of notion_upsert_record: the database schema as
(property name, property type) pairs, and the HTTP outcomes. -/
structure NotionHttpEnv where
  database_schema : Except String (List (String × String))
  patch_outcome : PatchOutcome
  post_outcome : Except String NotionUpsertInfo
deriving DecidableEq, Repr

/-- notion_find_title_property_name: first property of type title. -/
def notion_find_title_property_name (schema : List (String × String)) : Option String :=
  ((schema.find? (fun p => p.2 == "title")).map (fun p => p.1))

/-- The trimmed non-empty page id of a record. -/
def record_trimmed_page_id (record : Record) : Option String :=
  ((record.notion_page_id.map rustTrim).filter (fun s => s != ""))

/-- notion_upsert_record (types.rs lines 4452-4560): fetch the database
schema, locate the title property, PATCH when a page id exists (404 or
object_not_found falls through to POST), otherwise POST. -/
def notion_upsert_record (henv : NotionHttpEnv) (record : Record) :
    List SyncEffect × Except String NotionUpsertInfo :=
  match henv.database_schema with
  | Except.error e => ([SyncEffect.fetch_database], Except.error e)
  | Except.ok schema =>
    match notion_find_title_property_name schema with
    | none => ([SyncEffect.fetch_database],
        Except.error "Could not find title property in target Notion database")
    | some _ =>
      match record_trimmed_page_id record with
      | some _ =>
        match henv.patch_outcome with
        | PatchOutcome.success info =>
            ([SyncEffect.fetch_database, SyncEffect.patch_page], Except.ok info)
        | PatchOutcome.not_found =>
            match henv.post_outcome with
            | Except.ok info =>
                ([SyncEffect.fetch_database, SyncEffect.patch_page, SyncEffect.post_page],
                  Except.ok info)
            | Except.error e =>
                ([SyncEffect.fetch_database, SyncEffect.patch_page, SyncEffect.post_page],
                  Except.error e)
        | PatchOutcome.failure status body =>
            ([SyncEffect.fetch_database, SyncEffect.patch_page],
              Except.error ("Notion API " ++ toString status ++ ": " ++ body))
      | none =>
        match henv.post_outcome with
        | Except.ok info =>
            ([SyncEffect.fetch_database, SyncEffect.post_page], Except.ok info)
        | Except.error e =>
            ([SyncEffect.fetch_database, SyncEffect.post_page], Except.error e)

/-- push_local_record_to_notion (types.rs lines 4416-4443). -/
def push_local_record_to_notion (henv : NotionHttpEnv)
    (digest : String → String → String → String → String → Option String →
      List String → Nat)
    (now : String) (record : Record) (action : String) :
    List SyncEffect × Record × NotionSyncResult :=
  match notion_upsert_record henv record with
  | (effects, Except.ok info) =>
      let r1 := { record with
        notion_page_id := some info.page_id,
        notion_url := info.page_url }
      let r2 := mark_record_synced digest now r1 info.last_edited_time
      (effects ++ [SyncEffect.persist_files, SyncEffect.upsert_index], r2,
        build_sync_result r2 action false)
  | (effects, Except.error e) =>
      let r1 := { record with
        notion_sync_status := "FAILED",
        notion_error := some e }
      (effects ++ [SyncEffect.persist_files, SyncEffect.upsert_index], r1,
        build_sync_result r1 "push_failed" false)

/-- The descriptive conflict error both sync paths store. -/
def conflict_error_message : String :=
  "Conflict detected: local and Notion both changed since last sync."

/-- sync_record_bidirectional_internal (types.rs lines 4046-4155):
fetch_full is the outcome of the content fetch (only attempted when a
trimmed page id exists). -/
def sync_record_bidirectional_internal (henv : NotionHttpEnv)
    (digest : String → String → String → String → String → Option String →
      List String → Nat)
    (now : String) (record : Record)
    (fetch_full : Except String NotionRemoteRecord) (strategy : String) :
    List SyncEffect × Record × NotionSyncResult :=
  let page_id := record_trimmed_page_id record
  let fetched : List SyncEffect := match page_id with
    | some _ => [SyncEffect.fetch_remote true]
    | none => []
  let remote : Option NotionRemoteRecord := match page_id with
    | some _ => fetch_full.toOption
    | none => none
  match remote with
  | some remote_record =>
    let local_changed := local_has_changed_since_sync digest record
    let notion_changed := remote_has_changed record remote_record
    if local_changed && notion_changed then
      if strategy = "manual" then
        let r1 := { record with
          notion_sync_status := "CONFLICT",
          notion_error := some conflict_error_message }
        (fetched ++ [SyncEffect.persist_files, SyncEffect.upsert_index], r1,
          build_sync_result r1 "conflict_manual" true)
      else if strategy = "notion_wins" then
        let next := apply_remote_to_local_record record remote_record
        let next2 := mark_record_synced digest now next remote_record.last_edited_time
        (fetched ++ [SyncEffect.persist_files, SyncEffect.upsert_index], next2,
          build_sync_result next2 "pulled_notion_conflict_notion_wins" false)
      else
        let p := push_local_record_to_notion henv digest now record
          "pushed_local_conflict_local_wins"
        (fetched ++ p.1, p.2.1, p.2.2)
    else if local_changed then
      let p := push_local_record_to_notion henv digest now record "pushed_local"
      (fetched ++ p.1, p.2.1, p.2.2)
    else if notion_changed then
      let next := apply_remote_to_local_record record remote_record
      let next2 := mark_record_synced digest now next remote_record.last_edited_time
      (fetched ++ [SyncEffect.persist_files, SyncEffect.upsert_index], next2,
        build_sync_result next2 "pulled_notion" false)
    else
      let r2 := mark_record_synced digest now record remote_record.last_edited_time
      (fetched ++ [SyncEffect.persist_files, SyncEffect.upsert_index], r2,
        build_sync_result r2 "noop" false)
  | none =>
    let p := push_local_record_to_notion henv digest now record "pushed_local"
    (fetched ++ p.1, p.2.1, p.2.2)

/-- sync_record_to_notion_internal (types.rs lines 3976-4044): the
metadata pre-fetch (without content) is only attempted when a trimmed
page id exists; a failed pre-fetch falls through to the push. Under
notion_wins a second content fetch happens and its error aborts. -/
def sync_record_to_notion_internal (henv : NotionHttpEnv)
    (digest : String → String → String → String → String → Option String →
      List String → Nat)
    (now : String) (record : Record)
    (fetch_meta : Except String NotionRemoteRecord)
    (fetch_full : Except String NotionRemoteRecord) (strategy : String) :
    List SyncEffect × Record × Except String NotionSyncResult :=
  let page_id := record_trimmed_page_id record
  let fetched : List SyncEffect := match page_id with
    | some _ => [SyncEffect.fetch_remote false]
    | none => []
  let remote_meta : Option NotionRemoteRecord := match page_id with
    | some _ => fetch_meta.toOption
    | none => none
  let push := fun (pre : List SyncEffect) =>
    let p := push_local_record_to_notion henv digest now record "pushed_local"
    (pre ++ p.1, p.2.1, Except.ok p.2.2)
  match remote_meta with
  | some remote_record =>
    let local_changed := local_has_changed_since_sync digest record
    let notion_changed := remote_has_changed record remote_record
    if local_changed && notion_changed then
      if strategy = "manual" then
        let r1 := { record with
          notion_sync_status := "CONFLICT",
          notion_error := some conflict_error_message }
        (fetched ++ [SyncEffect.persist_files, SyncEffect.upsert_index], r1,
          Except.ok (build_sync_result r1 "conflict_manual" true))
      else if strategy = "notion_wins" then
        match fetch_full with
        | Except.ok remote_full =>
          let next := apply_remote_to_local_record record remote_full
          let next2 := mark_record_synced digest now next remote_full.last_edited_time
          (fetched ++ [SyncEffect.fetch_remote true, SyncEffect.persist_files,
              SyncEffect.upsert_index], next2,
            Except.ok (build_sync_result next2 "pulled_notion_conflict_notion_wins" false))
        | Except.error e =>
          (fetched ++ [SyncEffect.fetch_remote true], record, Except.error e)
      else push fetched
    else push fetched
  | none => push fetched

end Kofnote

namespace Kofnote

/-! # Theorems -/

/-- C5: every transition performed by the debate engine goes through
advance_debate_state, whose guard accepts exactly the eight pairs the
claim enumerates; on any other pair it returns a DEBATE_ERR_STATE error
and leaves the state cell unchanged. -/
theorem debate_transitions_exactly_allowed :
    ∀ (c : Option DebateState) (n : DebateState),
      (validate_debate_transition c n = true ↔ (c, n) ∈ allowed_transition_pairs)
      ∧ advance_debate_state c n =
          (if (c, n) ∈ allowed_transition_pairs then
            (some n, Except.ok ())
          else
            (c, Except.error (debate_error "DEBATE_ERR_STATE"
              ("Invalid transition: " ++ debugOptionState c ++ " -> " ++ n.as_str)))) := by
  decide

/-- C4, counterexample: the input "remote" does not normalize to the
remote-wins policy (which the source spells "notion_wins"); it falls
through to "manual". -/
theorem conflict_strategy_remote_maps_to_manual :
    normalize_conflict_strategy (some "remote") = "manual"
    ∧ normalize_conflict_strategy (some "remote_wins") = "notion_wins"
    ∧ ("manual" : String) ≠ "notion_wins" := by
  refine ⟨?_, ?_, ?_⟩
  all_goals decide

/-- C4, amended: normalization trims and lowercases its input (absence
defaulting to manual); local and local_wins map to local_wins; notion,
notion_wins and remote_wins map to the remote-wins policy (spelled
notion_wins); every other value, the bare alias remote included, maps to
manual. -/
theorem conflict_strategy_normalization_table :
    normalize_conflict_strategy none = "manual"
    ∧ (∀ v : Option String,
        normalize_conflict_strategy v =
          (let s := trimLower (v.getD "manual")
           if s = "local" ∨ s = "local_wins" then "local_wins"
           else if s = "notion" ∨ s = "notion_wins" ∨ s = "remote_wins" then "notion_wins"
           else "manual"))
    ∧ normalize_conflict_strategy (some "local") = "local_wins"
    ∧ normalize_conflict_strategy (some "local_wins") = "local_wins"
    ∧ normalize_conflict_strategy (some "notion") = "notion_wins"
    ∧ normalize_conflict_strategy (some " Remote_Wins ") = "notion_wins"
    ∧ normalize_conflict_strategy (some "remote") = "manual"
    ∧ normalize_conflict_strategy (some "") = "manual" := by
  refine ⟨by decide, fun v => rfl, ?_, ?_, ?_, ?_, ?_, ?_⟩
  all_goals decide

theorem fold_provided_lookup (reg : DebateProviderRegistry)
    (l : List DebateParticipantConfig)
    (st : List String × (DebateRole → Option DebateRuntimeParticipant))
    (role : DebateRole) :
    (l.foldl (normalize_participant_step reg) st).2 role =
      (match last_config_for l role with
       | some c => some (normalized_participant reg role c)
       | none => st.2 role) := by
  induction l generalizing st with
  | nil => rfl
  | cons c t ih =>
    rw [List.foldl_cons, ih]
    cases hlast : last_config_for t role with
    | some c2 => simp [last_config_for, hlast]
    | none =>
      simp only [last_config_for, hlast]
      unfold normalize_participant_step
      cases hp : parse_debate_role (c.role.getD "") with
      | some role0 =>
        by_cases hr : role = role0
        · subst hr
          simp [hp, normalized_participant]
        · have hr2 : ¬(some role0 = some role) := fun hc =>
            hr (Option.some.inj hc).symm
          simp [hp, hr, hr2]
      | none =>
        simp only [hp]
        split <;> rfl

/-- C1, amended theorem: intake normalization yields exactly five
participants in the fixed role order Proponent, Critic, Analyst,
Synthesizer, Judge; a role the input did not supply gets the synthesized
participant with provider local and model local-heuristic-v1; and a role
the input lists more than once resolves to its last occurrence
(HashMap::insert overwrites). -/
theorem debate_intake_normalized_shape (request : DebateModeRequest)
    (reg : DebateProviderRegistry) (r : DebateNormalizedRequest)
    (h : normalize_debate_request request reg = Except.ok r) :
    r.participants =
      DebateRole.allRoles.map (fun role =>
        match last_config_for request.participants role with
        | some config => normalized_participant reg role config
        | none => local_default_participant role)
    ∧ r.participants.map (fun p => p.role) = DebateRole.allRoles
    ∧ r.participants.length = 5 := by
  have hparts : r.participants =
      DebateRole.allRoles.map (fun role =>
        match last_config_for request.participants role with
        | some config => normalized_participant reg role config
        | none => local_default_participant role) := by
    simp only [normalize_debate_request] at h
    split at h
    · exact absurd h (by simp)
    · split at h
      · exact absurd h (by simp)
      · have hr := Except.ok.inj h
        subst hr
        simp only
        apply List.map_congr_left
        intro role _
        rw [fold_provided_lookup]
        cases last_config_for request.participants role with
        | some config => rfl
        | none => rfl
  refine ⟨hparts, ?_, ?_⟩
  · rw [hparts, List.map_map]
    have : ∀ role ∈ DebateRole.allRoles,
        ((fun p => p.role) ∘ fun role =>
          (match last_config_for request.participants role with
           | some config => normalized_participant reg role config
           | none => local_default_participant role)) role = id role := by
      intro role _
      simp only [Function.comp_apply, id_eq]
      rcases hc : last_config_for request.participants role with _ | config
      · simp [hc, local_default_participant]
      · simp [hc, normalized_participant]
    rw [List.map_congr_left this, List.map_id]
  · rw [hparts, List.length_map]
    rfl

/-- C1, witness: the empty participants list yields the five synthesized
local participants in fixed role order. -/
theorem debate_intake_normalized_shape_witness :
    normalize_debate_request
        { problem := "p", constraints := [], output_type := "decision", participants := [],
          max_turn_seconds := none, max_turn_tokens := none, writeback_record_type := none }
        ⟨[]⟩
      = Except.ok
        { problem := "p", constraints := [], output_type := "decision",
          participants :=
            [ local_default_participant .Proponent, local_default_participant .Critic,
              local_default_participant .Analyst, local_default_participant .Synthesizer,
              local_default_participant .Judge ],
          max_turn_seconds := 35, max_turn_tokens := 900,
          writeback_record_type := none, warning_codes := [] }
    ∧ ({ problem := "p", constraints := [], output_type := "decision",
          participants :=
            [ local_default_participant .Proponent, local_default_participant .Critic,
              local_default_participant .Analyst, local_default_participant .Synthesizer,
              local_default_participant .Judge ],
          max_turn_seconds := 35, max_turn_tokens := 900,
          writeback_record_type := none, warning_codes := [] }
          : DebateNormalizedRequest).participants =
        DebateRole.allRoles.map (fun role =>
          match last_config_for ([] : List DebateParticipantConfig) role with
          | some config => normalized_participant ⟨[]⟩ role config
          | none => local_default_participant role) := by
  exact ⟨by decide,
    (debate_intake_normalized_shape
      { problem := "p", constraints := [], output_type := "decision", participants := [],
        max_turn_seconds := none, max_turn_tokens := none, writeback_record_type := none }
      ⟨[]⟩
      { problem := "p", constraints := [], output_type := "decision",
        participants :=
          [ local_default_participant .Proponent, local_default_participant .Critic,
            local_default_participant .Analyst, local_default_participant .Synthesizer,
            local_default_participant .Judge ],
        max_turn_seconds := 35, max_turn_tokens := 900,
        writeback_record_type := none, warning_codes := [] }
      (by decide)).1⟩

/-- C1, counterexample: when the same role appears twice in the input,
the LAST occurrence wins (model name m2, not the first occurrence m1),
refuting the first-occurrence-wins claim. -/
theorem debate_intake_first_occurrence_loses :
    (normalize_debate_request
        { problem := "p", constraints := [], output_type := "decision",
          participants :=
            [ { role := some "Proponent", model_provider := some "local",
                model_name := some "m1" },
              { role := some "Proponent", model_provider := some "local",
                model_name := some "m2" } ],
          max_turn_seconds := none, max_turn_tokens := none, writeback_record_type := none }
        ⟨[]⟩).map (fun r => r.participants.map (fun p => p.model_name))
      = Except.ok ["m2", "local-heuristic-v1", "local-heuristic-v1",
          "local-heuristic-v1", "local-heuristic-v1"]
    ∧ (Except.ok ["m2", "local-heuristic-v1", "local-heuristic-v1",
          "local-heuristic-v1", "local-heuristic-v1"] : Except String (List String)) ≠
        Except.ok ["m1", "local-heuristic-v1", "local-heuristic-v1",
          "local-heuristic-v1", "local-heuristic-v1"] := by
  exact ⟨by decide, by decide⟩

theorem rustClamp_eq_self (x lo hi : ℚ) (h1 : lo ≤ x) (h2 : x ≤ hi) :
    rustClamp x lo hi = x := by
  unfold rustClamp
  rw [max_eq_left h1, min_eq_left h2]

theorem lo_le_rustClamp (x lo hi : ℚ) (h : lo ≤ hi) : lo ≤ rustClamp x lo hi :=
  le_min (le_max_right x lo) h

theorem rustClamp_le_hi (x lo hi : ℚ) : rustClamp x lo hi ≤ hi :=
  min_le_right _ _

theorem debate_ok_le_total (rounds : List DebateRoundArtifactM) :
    debate_ok_turns rounds ≤ debate_total_turns rounds := by
  unfold debate_ok_turns debate_total_turns
  calc ((rounds.flatMap (fun round => round.turns)).filter
          (fun turn => turn.status == "ok")).length
      ≤ (rounds.flatMap (fun round => round.turns)).length := List.length_filter_le _ _
    _ = ((rounds.map (fun round => round.turns.length)).sum) := by
        induction rounds with
        | nil => rfl
        | cons r t ih =>
          simp only [List.flatMap_cons, List.length_append, ih, List.map_cons,
            List.sum_cons]

/-- C2: for any debate run with a positive number of turns, letting T be
the total turn count and K the ok-turn count, the consensus score is
round(K/T, 3) and the confidence score is
round(clamp(K/T - 0.03 (T-K), 0, 1), 3), in exact rational arithmetic
with f64::round as round-half-away-from-zero. -/
theorem debate_consensus_scores_formula (rounds : List DebateRoundArtifactM)
    (error_codes : List String) (hT : debate_total_turns rounds ≠ 0) :
    (build_debate_consensus rounds error_codes).consensus_score =
      round_to_3 ((debate_ok_turns rounds : ℚ) / (debate_total_turns rounds : ℚ))
    ∧ (build_debate_consensus rounds error_codes).confidence_score =
      round_to_3 (rustClamp ((debate_ok_turns rounds : ℚ) / (debate_total_turns rounds : ℚ)
        - 3 / 100 * ((debate_total_turns rounds : ℚ) - (debate_ok_turns rounds : ℚ))) 0 1) := by
  have hKT := debate_ok_le_total rounds
  have hTpos : (0 : ℚ) < (debate_total_turns rounds : ℚ) := by
    exact_mod_cast Nat.pos_of_ne_zero hT
  have hbase0 : (0 : ℚ) ≤ (debate_ok_turns rounds : ℚ) / (debate_total_turns rounds : ℚ) :=
    div_nonneg (by positivity) (le_of_lt hTpos)
  have hbase1 : (debate_ok_turns rounds : ℚ) / (debate_total_turns rounds : ℚ) ≤ 1 := by
    rw [div_le_one hTpos]
    exact_mod_cast hKT
  have hsub : ((debate_total_turns rounds - debate_ok_turns rounds : Nat) : ℚ)
      = (debate_total_turns rounds : ℚ) - (debate_ok_turns rounds : ℚ) :=
    Nat.cast_sub hKT
  constructor
  · simp only [build_debate_consensus, hT, if_false]
    rw [round_score, round_to_3, rustClamp_eq_self _ _ _ hbase0 hbase1]
  · simp only [build_debate_consensus, hT, if_false]
    rw [round_score, round_to_3, hsub, mul_comm ((debate_total_turns rounds : ℚ)
      - (debate_ok_turns rounds : ℚ)) (3 / 100)]
    rw [rustClamp_eq_self (rustClamp _ 0 1) 0 1
      (lo_le_rustClamp _ 0 1 (by norm_num)) (rustClamp_le_hi _ 0 1)]

/-- C2, witness: one round with one ok and one failed turn (T = 2, K = 1). -/
theorem debate_consensus_scores_formula_witness :
    debate_total_turns
        [{ round := "round-1",
           turns := [{ role := "Proponent", status := "ok", claim := "c",
                       risks := [], error_message := none },
                     { role := "Critic", status := "failed", claim := "",
                       risks := [], error_message := some "boom" }] }] ≠ 0
    ∧ ((build_debate_consensus
          [{ round := "round-1",
             turns := [{ role := "Proponent", status := "ok", claim := "c",
                         risks := [], error_message := none },
                       { role := "Critic", status := "failed", claim := "",
                         risks := [], error_message := some "boom" }] }]
          []).consensus_score =
        round_to_3 ((debate_ok_turns
          [{ round := "round-1",
             turns := [{ role := "Proponent", status := "ok", claim := "c",
                         risks := [], error_message := none },
                       { role := "Critic", status := "failed", claim := "",
                         risks := [], error_message := some "boom" }] }] : ℚ) /
          (debate_total_turns
          [{ round := "round-1",
             turns := [{ role := "Proponent", status := "ok", claim := "c",
                         risks := [], error_message := none },
                       { role := "Critic", status := "failed", claim := "",
                         risks := [], error_message := some "boom" }] }] : ℚ))
      ∧ (build_debate_consensus
          [{ round := "round-1",
             turns := [{ role := "Proponent", status := "ok", claim := "c",
                         risks := [], error_message := none },
                       { role := "Critic", status := "failed", claim := "",
                         risks := [], error_message := some "boom" }] }]
          []).confidence_score =
        round_to_3 (rustClamp ((debate_ok_turns
          [{ round := "round-1",
             turns := [{ role := "Proponent", status := "ok", claim := "c",
                         risks := [], error_message := none },
                       { role := "Critic", status := "failed", claim := "",
                         risks := [], error_message := some "boom" }] }] : ℚ) /
          (debate_total_turns
          [{ round := "round-1",
             turns := [{ role := "Proponent", status := "ok", claim := "c",
                         risks := [], error_message := none },
                       { role := "Critic", status := "failed", claim := "",
                         risks := [], error_message := some "boom" }] }] : ℚ)
          - 3 / 100 * ((debate_total_turns
          [{ round := "round-1",
             turns := [{ role := "Proponent", status := "ok", claim := "c",
                         risks := [], error_message := none },
                       { role := "Critic", status := "failed", claim := "",
                         risks := [], error_message := some "boom" }] }] : ℚ)
          - (debate_ok_turns
          [{ round := "round-1",
             turns := [{ role := "Proponent", status := "ok", claim := "c",
                         risks := [], error_message := none },
                       { role := "Critic", status := "failed", claim := "",
                         risks := [], error_message := some "boom" }] }] : ℚ))) 0 1)) := by
  exact ⟨by decide, debate_consensus_scores_formula _ [] (by decide)⟩

theorem as_str_jsonOfOpt (o : Option String) : (jsonOfOpt o).as_str = o := by
  cases o <;> rfl

theorem filterMap_as_str_map_str (l : List String) :
    (l.map Json.str).filterMap Json.as_str = l := by
  induction l with
  | nil => rfl
  | cons a t ih => simp [Json.as_str, ih]

/-- C6: persisting a record with a canonical type to its structured JSON
and reloading it with the record parser is the identity on the declared
fields. -/
theorem record_roundtrip_identity (record : Record) (jp mp : Option String)
    (mtime : String)
    (h : record.record_type = "decision" ∨ record.record_type = "worklog"
       ∨ record.record_type = "idea" ∨ record.record_type = "backlog"
       ∨ record.record_type = "note") :
    (persist_reload record jp mp mtime).record_type = record.record_type
    ∧ (persist_reload record jp mp mtime).title = record.title
    ∧ (persist_reload record jp mp mtime).created_at = record.created_at
    ∧ (persist_reload record jp mp mtime).source_text = record.source_text
    ∧ (persist_reload record jp mp mtime).final_body = record.final_body
    ∧ (persist_reload record jp mp mtime).tags = record.tags
    ∧ (persist_reload record jp mp mtime).date = record.date
    ∧ (persist_reload record jp mp mtime).notion_page_id = record.notion_page_id
    ∧ (persist_reload record jp mp mtime).notion_url = record.notion_url
    ∧ (persist_reload record jp mp mtime).notion_sync_status = record.notion_sync_status
    ∧ (persist_reload record jp mp mtime).notion_error = record.notion_error
    ∧ (persist_reload record jp mp mtime).notion_last_synced_at = record.notion_last_synced_at
    ∧ (persist_reload record jp mp mtime).notion_last_edited_time
        = record.notion_last_edited_time
    ∧ (persist_reload record jp mp mtime).notion_last_synced_hash
        = record.notion_last_synced_hash := by
  obtain ⟨rt, ti, ca, st, fb, tg, dt, pid, url, ss, er, sa, et, sh, jp2, mp2⟩ := record
  simp only at h
  refine ⟨?_, rfl, rfl, rfl, rfl, ?_, ?_, ?_, ?_, rfl, ?_, ?_, ?_, ?_⟩
  · show normalize_record_type rt = rt
    rcases h with h | h | h | h | h <;> rw [h] <;> decide
  · exact filterMap_as_str_map_str tg
  · exact as_str_jsonOfOpt dt
  · exact as_str_jsonOfOpt pid
  · exact as_str_jsonOfOpt url
  · exact as_str_jsonOfOpt er
  · exact as_str_jsonOfOpt sa
  · exact as_str_jsonOfOpt et
  · exact as_str_jsonOfOpt sh

/-- C6, witness: a concrete decision record with every optional field
populated round-trips on its type field. -/
theorem record_roundtrip_identity_witness :
    (("decision" : String) = "decision" ∨ ("decision" : String) = "worklog"
      ∨ ("decision" : String) = "idea" ∨ ("decision" : String) = "backlog"
      ∨ ("decision" : String) = "note")
    ∧ (persist_reload
        { record_type := "decision", title := "T",
          created_at := "2026-02-10T10:00:00Z",
          source_text := "s", final_body := "b", tags := ["a", "a", "b c"],
          date := some "2026-02-10", notion_page_id := some "pid",
          notion_url := some "https://n", notion_sync_status := "PENDING",
          notion_error := some "e", notion_last_synced_at := some "t1",
          notion_last_edited_time := some "t2",
          notion_last_synced_hash := some "h",
          json_path := none, md_path := none }
        (some "j") (some "m") "mt").record_type = "decision" := by
  exact ⟨by decide,
    (record_roundtrip_identity
      { record_type := "decision", title := "T",
        created_at := "2026-02-10T10:00:00Z",
        source_text := "s", final_body := "b", tags := ["a", "a", "b c"],
        date := some "2026-02-10", notion_page_id := some "pid",
        notion_url := some "https://n", notion_sync_status := "PENDING",
        notion_error := some "e", notion_last_synced_at := some "t1",
        notion_last_edited_time := some "t2",
        notion_last_synced_hash := some "h",
        json_path := none, md_path := none }
      (some "j") (some "m") "mt" (by decide)).1⟩

/-- C10: when upsert_record has a parseable prior file value, each of the
three watermark fields of the persisted record is the payload value when
supplied and the prior file value when the payload omits it. -/
theorem upsert_preserves_watermarks (payload : RecordPayload) (v : Json)
    (now : String) (jp mp : Option String) (mtime : String) :
    ((upsert_record_result payload (some v) now jp mp mtime).notion_last_synced_at
      = match payload.notion_last_synced_at with
        | some x => some x
        | none => value_string v "notion_last_synced_at")
    ∧ ((upsert_record_result payload (some v) now jp mp mtime).notion_last_edited_time
      = match payload.notion_last_edited_time with
        | some x => some x
        | none => value_string v "notion_last_edited_time")
    ∧ ((upsert_record_result payload (some v) now jp mp mtime).notion_last_synced_hash
      = match payload.notion_last_synced_hash with
        | some x => some x
        | none => value_string v "notion_last_synced_hash") := by
  obtain ⟨rt, ti, ca, st, fb, tg, dt, pid, url, ss, er, sa, et, sh⟩ := payload
  refine ⟨?_, ?_, ?_⟩
  · show (jsonOfOpt (sa.or (value_string v "notion_last_synced_at"))).as_str = _
    rw [as_str_jsonOfOpt]
    cases sa <;> rfl
  · show (jsonOfOpt (et.or (value_string v "notion_last_edited_time"))).as_str = _
    rw [as_str_jsonOfOpt]
    cases et <;> rfl
  · show (jsonOfOpt (sh.or (value_string v "notion_last_synced_hash"))).as_str = _
    rw [as_str_jsonOfOpt]
    cases sh <;> rfl

theorem hexDigitChar_not_ws : ∀ m, m < 16 → is_rust_ws (hexDigitChar m) = false := by
  decide

theorem natToHexAux_ws (n : Nat) (acc : List Char)
    (hacc : ∀ c ∈ acc, is_rust_ws c = false) :
    ∀ c ∈ natToHexAux n acc, is_rust_ws c = false := by
  by_cases hn : n = 0
  · rw [natToHexAux, dif_pos hn]
    exact hacc
  · rw [natToHexAux, dif_neg hn]
    refine natToHexAux_ws (n / 16) _ ?_
    intro c hc
    rcases List.mem_cons.mp hc with hc | hc
    · rw [hc]
      exact hexDigitChar_not_ws (n % 16) (Nat.mod_lt _ (by norm_num))
    · exact hacc c hc
termination_by n
decreasing_by exact Nat.div_lt_self (Nat.pos_of_ne_zero hn) (by norm_num)

theorem natToHexAux_length (n : Nat) (acc : List Char) :
    acc.length ≤ (natToHexAux n acc).length := by
  by_cases hn : n = 0
  · rw [natToHexAux, dif_pos hn]
  · rw [natToHexAux, dif_neg hn]
    calc acc.length ≤ (hexDigitChar (n % 16) :: acc).length := by simp
      _ ≤ (natToHexAux (n / 16) (hexDigitChar (n % 16) :: acc)).length :=
          natToHexAux_length (n / 16) _
termination_by n
decreasing_by exact Nat.div_lt_self (Nat.pos_of_ne_zero hn) (by norm_num)

theorem dropWhile_eq_self_of_none (p : Char → Bool) (l : List Char)
    (h : ∀ c ∈ l, p c = false) : l.dropWhile p = l := by
  cases l with
  | nil => rfl
  | cons a t => simp [List.dropWhile_cons, h a (by simp)]

theorem trimChars_of_no_ws (cs : List Char) (h : ∀ c ∈ cs, is_rust_ws c = false) :
    trimChars cs = cs := by
  unfold trimChars
  rw [dropWhile_eq_self_of_none _ _ h,
    dropWhile_eq_self_of_none _ _ (by intro c hc; exact h c (List.mem_reverse.mp hc)),
    List.reverse_reverse]

theorem rustTrim_natToHex (n : Nat) : rustTrim (natToHex n) = natToHex n := by
  by_cases hn : n = 0
  · rw [hn]
    decide
  · rw [natToHex, if_neg hn, rustTrim]
    rw [show (String.mk (natToHexAux n [])).toList = natToHexAux n [] from rfl]
    rw [trimChars_of_no_ws _ (natToHexAux_ws n [] (by intro c hc; simp at hc))]

theorem natToHex_ne_empty (n : Nat) : natToHex n ≠ "" := by
  by_cases hn : n = 0
  · rw [hn]
    decide
  · rw [natToHex, if_neg hn]
    intro hc
    have h1 : (1 : Nat) ≤ (natToHexAux n []).length := by
      rw [natToHexAux, dif_neg hn]
      calc (1 : Nat) = [hexDigitChar (n % 16)].length := rfl
        _ ≤ _ := natToHexAux_length (n / 16) _
    have h2 : natToHexAux n [] = [] := congrArg String.toList hc
    rw [h2] at h1
    simp at h1

/-- C9: immediately after mark_record_synced, the local-change detector
returns false, for every digest function, every record, every remote
edit time and every clock value. -/
theorem mark_synced_clears_local_change
    (digest : String → String → String → String → String → Option String →
      List String → Nat)
    (now : String) (record : Record) (remote_last_edited_time : Option String) :
    local_has_changed_since_sync digest
      (mark_record_synced digest now record remote_last_edited_time) = false := by
  have hkey : ∀ r2 : Record,
      local_has_changed_since_sync digest
        { r2 with notion_last_synced_hash := some (record_sync_hash digest r2) } = false := by
    intro r2
    unfold local_has_changed_since_sync
    rw [show ({ r2 with notion_last_synced_hash := some (record_sync_hash digest r2) }
        : Record).notion_last_synced_hash = some (record_sync_hash digest r2) from rfl]
    rw [Option.getD_some, record_sync_hash, rustTrim_natToHex,
      if_neg (natToHex_ne_empty _)]
    simp [record_sync_hash]
  exact hkey _

/-- C7, counterexample: when the JSON file exists and its removal fails,
delete_record returns early: neither the markdown removal nor the index
deletion is attempted, refuting best-effort independence. -/
theorem delete_record_failure_skips_rest :
    (delete_record
      { json_exists := true, md_exists := true,
        remove_json_result := some "permission denied",
        remove_md_result := none, index_delete_result := none }).1
      = [DeleteOp.remove_json]
    ∧ DeleteOp.remove_md ∉ (delete_record
      { json_exists := true, md_exists := true,
        remove_json_result := some "permission denied",
        remove_md_result := none, index_delete_result := none }).1
    ∧ DeleteOp.delete_index_row ∉ (delete_record
      { json_exists := true, md_exists := true,
        remove_json_result := some "permission denied",
        remove_md_result := none, index_delete_result := none }).1 := by
  refine ⟨rfl, ?_, ?_⟩ <;> decide

/-- C7, amended: delete_record skips missing files; a failed JSON
removal aborts before the markdown removal and the index deletion, and a
failed markdown removal aborts before the index deletion; only the
index-row deletion is best-effort, its outcome ignored. -/
theorem delete_record_behaviour :
    (∀ env : DeleteEnv,
      (DeleteOp.remove_json ∈ (delete_record env).1 ↔ env.json_exists = true)
      ∧ (DeleteOp.remove_md ∈ (delete_record env).1 ↔
          env.md_exists = true
          ∧ (env.json_exists = false ∨ env.remove_json_result = none))
      ∧ (DeleteOp.delete_index_row ∈ (delete_record env).1 ↔
          (env.json_exists = false ∨ env.remove_json_result = none)
          ∧ (env.md_exists = false ∨ env.remove_md_result = none))
      ∧ ((delete_record env).2 = Except.ok () ↔
          DeleteOp.delete_index_row ∈ (delete_record env).1))
    ∧ ∀ (env : DeleteEnv) (r : Option String),
        delete_record { env with index_delete_result := r } = delete_record env := by
  constructor
  · intro env
    obtain ⟨je, me, rj, rm, ri⟩ := env
    cases je <;> cases me <;> cases rj <;> cases rm <;>
      simp [delete_record, delete_record_md_step]
  · intro env r
    obtain ⟨je, me, rj, rm, ri⟩ := env
    rfl

/-- C3: under the manual conflict strategy, when the record carries a
page id, the remote fetch succeeds and both watermarks indicate change,
both sync entry points persist the record with sync_status CONFLICT and
the descriptive error, and issue no PATCH and no POST. -/
theorem manual_conflict_no_remote_write
    (henv : NotionHttpEnv)
    (digest : String → String → String → String → String → Option String →
      List String → Nat)
    (now : String) (record : Record) (remote : NotionRemoteRecord)
    (fetch_full : Except String NotionRemoteRecord) (pid : String)
    (hpid : record_trimmed_page_id record = some pid)
    (hlocal : local_has_changed_since_sync digest record = true)
    (hremote : remote_has_changed record remote = true) :
    (sync_record_bidirectional_internal henv digest now record
        (Except.ok remote) "manual"
      = ([SyncEffect.fetch_remote true, SyncEffect.persist_files, SyncEffect.upsert_index],
         { record with
             notion_sync_status := "CONFLICT",
             notion_error := some conflict_error_message },
         build_sync_result
           { record with
               notion_sync_status := "CONFLICT",
               notion_error := some conflict_error_message }
           "conflict_manual" true))
    ∧ SyncEffect.patch_page ∉ (sync_record_bidirectional_internal henv digest now record
        (Except.ok remote) "manual").1
    ∧ SyncEffect.post_page ∉ (sync_record_bidirectional_internal henv digest now record
        (Except.ok remote) "manual").1
    ∧ (sync_record_to_notion_internal henv digest now record
        (Except.ok remote) fetch_full "manual"
      = ([SyncEffect.fetch_remote false, SyncEffect.persist_files, SyncEffect.upsert_index],
         { record with
             notion_sync_status := "CONFLICT",
             notion_error := some conflict_error_message },
         Except.ok (build_sync_result
           { record with
               notion_sync_status := "CONFLICT",
               notion_error := some conflict_error_message }
           "conflict_manual" true)))
    ∧ SyncEffect.patch_page ∉ (sync_record_to_notion_internal henv digest now record
        (Except.ok remote) fetch_full "manual").1
    ∧ SyncEffect.post_page ∉ (sync_record_to_notion_internal henv digest now record
        (Except.ok remote) fetch_full "manual").1 := by
  have h1 : sync_record_bidirectional_internal henv digest now record
      (Except.ok remote) "manual"
      = ([SyncEffect.fetch_remote true, SyncEffect.persist_files, SyncEffect.upsert_index],
         { record with
             notion_sync_status := "CONFLICT",
             notion_error := some conflict_error_message },
         build_sync_result
           { record with
               notion_sync_status := "CONFLICT",
               notion_error := some conflict_error_message }
           "conflict_manual" true) := by
    simp [sync_record_bidirectional_internal, hpid, hlocal, hremote, Except.toOption]
  have h2 : sync_record_to_notion_internal henv digest now record
      (Except.ok remote) fetch_full "manual"
      = ([SyncEffect.fetch_remote false, SyncEffect.persist_files, SyncEffect.upsert_index],
         { record with
             notion_sync_status := "CONFLICT",
             notion_error := some conflict_error_message },
         Except.ok (build_sync_result
           { record with
               notion_sync_status := "CONFLICT",
               notion_error := some conflict_error_message }
           "conflict_manual" true)) := by
    simp [sync_record_to_notion_internal, hpid, hlocal, hremote, Except.toOption]
  refine ⟨h1, ?_, ?_, h2, ?_, ?_⟩
  · rw [h1]
    simp
  · rw [h1]
    simp
  · rw [h2]
    simp
  · rw [h2]
    simp

/-- C3, witness: a concrete record with a stale hash and an older remote
edit time, against a remote fetch reporting a newer edit time. -/
theorem manual_conflict_no_remote_write_witness :
    record_trimmed_page_id
      { record_type := "note", title := "T", created_at := "2026-01-01T00:00:00Z",
        source_text := "s", final_body := "b", tags := [], date := none,
        notion_page_id := some "pid", notion_url := none,
        notion_sync_status := "SUCCESS", notion_error := none,
        notion_last_synced_at := none, notion_last_edited_time := some "T0",
        notion_last_synced_hash := some "stale", json_path := none, md_path := none }
      = some "pid"
    ∧ local_has_changed_since_sync (fun _ _ _ _ _ _ _ => 0)
      { record_type := "note", title := "T", created_at := "2026-01-01T00:00:00Z",
        source_text := "s", final_body := "b", tags := [], date := none,
        notion_page_id := some "pid", notion_url := none,
        notion_sync_status := "SUCCESS", notion_error := none,
        notion_last_synced_at := none, notion_last_edited_time := some "T0",
        notion_last_synced_hash := some "stale", json_path := none, md_path := none }
      = true
    ∧ remote_has_changed
      { record_type := "note", title := "T", created_at := "2026-01-01T00:00:00Z",
        source_text := "s", final_body := "b", tags := [], date := none,
        notion_page_id := some "pid", notion_url := none,
        notion_sync_status := "SUCCESS", notion_error := none,
        notion_last_synced_at := none, notion_last_edited_time := some "T0",
        notion_last_synced_hash := some "stale", json_path := none, md_path := none }
      { page_id := "pid", page_url := none, last_edited_time := some "T1",
        record_type := "note", title := "T", created_at := "", date := none,
        tags := [], final_body := "", source_text := "" }
      = true
    ∧ sync_record_bidirectional_internal
      { database_schema := Except.ok [("Name", "title")],
        patch_outcome := PatchOutcome.not_found,
        post_outcome := Except.error "unused" }
      (fun _ _ _ _ _ _ _ => 0) "now"
      { record_type := "note", title := "T", created_at := "2026-01-01T00:00:00Z",
        source_text := "s", final_body := "b", tags := [], date := none,
        notion_page_id := some "pid", notion_url := none,
        notion_sync_status := "SUCCESS", notion_error := none,
        notion_last_synced_at := none, notion_last_edited_time := some "T0",
        notion_last_synced_hash := some "stale", json_path := none, md_path := none }
      (Except.ok
        { page_id := "pid", page_url := none, last_edited_time := some "T1",
          record_type := "note", title := "T", created_at := "", date := none,
          tags := [], final_body := "", source_text := "" })
      "manual"
      = ([SyncEffect.fetch_remote true, SyncEffect.persist_files, SyncEffect.upsert_index],
         { record_type := "note", title := "T", created_at := "2026-01-01T00:00:00Z",
           source_text := "s", final_body := "b", tags := [], date := none,
           notion_page_id := some "pid", notion_url := none,
           notion_sync_status := "CONFLICT",
           notion_error := some conflict_error_message,
           notion_last_synced_at := none, notion_last_edited_time := some "T0",
           notion_last_synced_hash := some "stale", json_path := none, md_path := none },
         build_sync_result
           { record_type := "note", title := "T", created_at := "2026-01-01T00:00:00Z",
             source_text := "s", final_body := "b", tags := [], date := none,
             notion_page_id := some "pid", notion_url := none,
             notion_sync_status := "CONFLICT",
             notion_error := some conflict_error_message,
             notion_last_synced_at := none, notion_last_edited_time := some "T0",
             notion_last_synced_hash := some "stale", json_path := none, md_path := none }
           "conflict_manual" true) := by
  refine ⟨by decide, by decide, by decide, ?_⟩
  exact (manual_conflict_no_remote_write
    { database_schema := Except.ok [("Name", "title")],
      patch_outcome := PatchOutcome.not_found,
      post_outcome := Except.error "unused" }
    (fun _ _ _ _ _ _ _ => 0) "now"
    { record_type := "note", title := "T", created_at := "2026-01-01T00:00:00Z",
      source_text := "s", final_body := "b", tags := [], date := none,
      notion_page_id := some "pid", notion_url := none,
      notion_sync_status := "SUCCESS", notion_error := none,
      notion_last_synced_at := none, notion_last_edited_time := some "T0",
      notion_last_synced_hash := some "stale", json_path := none, md_path := none }
    { page_id := "pid", page_url := none, last_edited_time := some "T1",
      record_type := "note", title := "T", created_at := "", date := none,
      tags := [], final_body := "", source_text := "" }
    (Except.error "not fetched") "pid" (by decide) (by decide) (by decide)).1

/-- C8: slugify equals the spec pipeline (map non-retained characters of
the lowercased title to dashes, collapse dash runs, trim dashes at both
ends, yield "untitled" when empty, truncate to 48 code points), for every
classifier and every lowered character sequence; its result never exceeds
48 code points and is never empty. -/
theorem slugify_matches_spec :
    (∀ (keep : Char → Bool) (lowered : List Char),
        slugify_chars keep lowered = slugify_spec_chars keep lowered
        ∧ (slugify_chars keep lowered).length ≤ 48
        ∧ slugify_chars keep lowered ≠ [])
    ∧ ∀ value : String,
        slugify value = String.mk (slugify_spec_chars rust_is_alnum (rustLower value).toList) := by
  have key : ∀ (keep : Char → Bool) (lowered : List Char),
      slugify_chars keep lowered = slugify_spec_chars keep lowered := by
    intro keep lowered
    simp only [slugify_chars, slugify_spec_chars]
    rw [collapseLoop_eq_collapseRuns]
    set t := trimDashes (collapseRuns (dashify keep lowered)) with ht
    by_cases h0 : t = []
    · simp [h0]
    · simp only [if_neg h0]
      by_cases h48 : t.length > 48
      · simp [h48]
      · rw [if_neg h48, List.take_of_length_le (by omega)]
  refine ⟨fun keep lowered => ⟨key keep lowered, ?_, ?_⟩, fun value => by rw [slugify, key]⟩
  · rw [key]
    simp only [slugify_spec_chars]
    set t := trimDashes (collapseRuns (dashify keep lowered)) with ht
    by_cases h0 : t = []
    · simp [h0]
    · simp only [if_neg h0]
      have := List.length_take 48 t
      omega
  · rw [key]
    simp only [slugify_spec_chars]
    set t := trimDashes (collapseRuns (dashify keep lowered)) with ht
    by_cases h0 : t = []
    · simp [h0]
    · simp only [if_neg h0]
      intro hc
      rw [List.take_eq_nil_iff] at hc
      rcases hc with hc | hc
      · simp at hc
      · exact absurd hc h0

end Kofnote
